import Mathlib

/-!
Verification development for the result-caching retrieval layer of the
feedback-processing pipeline (`trial_logic/get_results_caching_redis.py`).

The embedding models Python dictionary values with `PyVal`, responses (which
the code always builds as dictionaries with string keys) as association lists
(`Resp`), and the in-process cache backend (`REDIS_AVAILABLE = False` branch)
as an association list of entries carrying their expiry instant.  Faults of
the external backends (the network cache and the durable store) are injected
through an explicit `Faults` record: an injected fault makes the corresponding
`try` block take its `except` path, exactly as a raised exception would.
Python exceptions escaping the helper functions (`AttributeError`,
`TypeError`, JSON decoding errors) are modelled with `Except String`.
-/

/-- A Python value as manipulated by the retrieval code: strings, integers,
booleans, `None`, lists, and string-keyed dictionaries (every dictionary the
code builds or serialises has string keys; see `pyKeyStr` for the one place a
record-supplied value is used as a key). -/
inductive PyVal where
  | str (s : String)
  | num (n : Int)
  | bool (b : Bool)
  | none
  | list (xs : List PyVal)
  | dict (kvs : List (String × PyVal))

/-- Python truthiness: empty strings, zero, `False`, `None`, empty lists and
empty dictionaries are falsy. -/
def PyVal.truthy : PyVal → Bool
  | .str s => !(s == "")
  | .num n => !(n == 0)
  | .bool b => b
  | .none => false
  | .list xs => !xs.isEmpty
  | .dict kvs => !kvs.isEmpty

/-- A response dictionary (string keys, `PyVal` values), in insertion order. -/
abbrev Resp := List (String × PyVal)

/-- Lookup in an association-list dictionary (first binding wins). -/
def respGet : Resp → String → Option PyVal
  | [], _ => Option.none
  | (k0, v0) :: rest, k => if k0 = k then some v0 else respGet rest k

/-- Python dictionary assignment `d[k] = v`: replace the binding if the key is
present, append it otherwise. -/
def respSet : Resp → String → PyVal → Resp
  | [], k, v => [(k, v)]
  | (k0, v0) :: rest, k, v =>
      if k0 = k then (k, v) :: rest else (k0, v0) :: respSet rest k v

/-- Lookup a key inside a `PyVal` dictionary (absent on non-dictionaries). -/
def dictLookup : PyVal → String → Option PyVal
  | .dict kvs, k => respGet kvs k
  | _, _ => Option.none

/-- Python `d.get(key, default)`; raises `AttributeError` when the receiver is
not a dictionary, as `rec.get(...)` does on a non-dict record item. -/
def pyGet (v : PyVal) (key : String) (dflt : PyVal) : Except String PyVal :=
  match v with
  | .dict kvs => .ok ((respGet kvs key).getD dflt)
  | _ => .error "AttributeError: get"

/-- Lowercase a string character by character (the effect of Python's
`str.lower` on the ASCII data handled here), stated so that the kernel can
evaluate it. -/
def strLower (s : String) : String := String.mk (s.data.map Char.toLower)

/-- Python `s.lower()`; raises `AttributeError` on non-strings. -/
def pyLower : PyVal → Except String String
  | .str s => .ok (strLower s)
  | _ => .error "AttributeError: lower"

/-- Python `len(...)`; defined on strings, lists and dictionaries, raises
`TypeError` otherwise. -/
def pyLen : PyVal → Except String Int
  | .str s => .ok s.length
  | .list xs => .ok xs.length
  | .dict kvs => .ok kvs.length
  | _ => .error "TypeError: len"

/-- Python iteration `for x in v`: lists yield their items, strings their
one-character substrings, dictionaries their keys; anything else raises
`TypeError`. -/
def pyIter : PyVal → Except String (List PyVal)
  | .list xs => .ok xs
  | .str s => .ok (s.data.map fun c => .str (String.mk [c]))
  | .dict kvs => .ok (kvs.map fun p => .str p.1)
  | _ => .error "TypeError: not iterable"

/-- Using a value as a dictionary key (`by_department[department]`).
Unhashable values (lists, dictionaries) raise `TypeError`.  Hashable
non-string keys are represented by the string form `json.dumps` would give
them when the response is serialised. -/
def pyKeyStr : PyVal → Except String String
  | .str s => .ok s
  | .num n => .ok (toString n)
  | .bool b => .ok (if b then "true" else "false")
  | .none => .ok "null"
  | _ => .error "TypeError: unhashable"

/-- Python `v == "s"` after `result.get('status')`: true exactly for the equal
string. -/
def pyEqStr (v : Option PyVal) (s : String) : Bool :=
  match v with
  | some (PyVal.str t) => t == s
  | _ => false

/-- A durable feedback record as read back from the store.  Absent keys are
`Option.none`; the field value types are the ones the retrieval code actually
handles. -/
structure Record where
  feedback_id : String
  status : Option String
  created_at : Option String
  updated_at : Option String
  processing_timestamp : Option String
  request_id : Option String
  original_data : Option PyVal
  results : Option PyVal
  analysis : Option PyVal

/-- `ResultsRetriever.status_messages`. -/
def status_messages : List (String × String) :=
  [("processing", "Feedback is still being processed"),
   ("completed", "Analysis completed successfully"),
   ("failed", "Analysis failed - please try again"),
   ("not_found", "Feedback ID not found")]

/-- Lookup in a string-to-string table. -/
def lookupStr : List (String × String) → String → Option String
  | [], _ => Option.none
  | (k0, v0) :: rest, k => if k0 = k then some v0 else lookupStr rest k

/-- Map an optional stored string to the value `record.get(key)` yields. -/
def optStr : Option String → PyVal
  | some s => .str s
  | Option.none => .none

/-- `ResultsRetriever._extract_analysis_data`: ordered extraction of the
analysis payload from a record, with `json.loads` modelled by the `parse`
parameter (parse failure corresponds to the caught `JSONDecodeError`, which
makes the function return `{}`). -/
def extract_analysis_data (parse : String → Option PyVal) (record : Record) : PyVal :=
  match record.results with
  | some (PyVal.dict kvs) =>
      match respGet kvs "analysis" with
      | some (PyVal.str s) => (parse s).getD (PyVal.dict [])
      | some v => v
      | Option.none =>
          match respGet kvs "executive_summary" with
          | some _ => PyVal.dict kvs
          | Option.none => PyVal.dict []
  | some (PyVal.str s) => (parse s).getD (PyVal.dict [])
  | some _ => PyVal.dict []
  | Option.none =>
      match record.analysis with
      | some (PyVal.str s) => (parse s).getD (PyVal.dict [])
      | some v => v
      | Option.none => PyVal.dict []

/-- Timeline phrases that promote a recommendation into `immediate_actions`. -/
def urgencyPhrases : List String :=
  ["immediate", "urgent", "24 hours", "within the next 2 weeks"]

/-- Accumulator of the recommendation-formatting loop: the three priority
buckets, the by-department grouping, and the immediate-action list. -/
structure RecAcc where
  high : List PyVal
  medium : List PyVal
  low : List PyVal
  byDept : List (String × List PyVal)
  immediate : List PyVal

/-- `if priority in formatted['by_priority']: ...append(rec)` — append to the
matching bucket; unrecognised priorities leave the buckets unchanged. -/
def addPriority (acc : RecAcc) (priority : String) (rec : PyVal) : RecAcc :=
  if priority = "high" then { acc with high := acc.high ++ [rec] }
  else if priority = "medium" then { acc with medium := acc.medium ++ [rec] }
  else if priority = "low" then { acc with low := acc.low ++ [rec] }
  else acc

/-- `by_department` update: append to the department's list, creating it when
absent. -/
def deptAppend : List (String × List PyVal) → String → PyVal → List (String × List PyVal)
  | [], k, rec => [(k, [rec])]
  | (k0, l) :: rest, k, rec =>
      if k0 = k then (k0, l ++ [rec]) :: rest else (k0, l) :: deptAppend rest k rec

/-- One iteration of the `for rec in recommendations` loop of
`_format_recommendations`. -/
def recStep (acc : RecAcc) (rec : PyVal) : Except String RecAcc := do
  let pv ← pyGet rec "priority" (.str "medium")
  let priority ← pyLower pv
  let dv ← pyGet rec "department" (.str "General")
  let acc1 := addPriority acc priority rec
  let dk ← pyKeyStr dv
  let acc2 := { acc1 with byDept := deptAppend acc1.byDept dk rec }
  let isImm ←
    if priority = "high" then pure true
    else do
      let tl ← pyGet rec "timeline" (.str "")
      let tls ← pyLower tl
      pure (urgencyPhrases.contains tls)
  if isImm then
    let act ← pyGet rec "action" (.str "")
    let tl2 ← pyGet rec "timeline" (.str "")
    let item := PyVal.dict
      [("action", act), ("department", dv), ("timeline", tl2), ("priority", .str priority)]
    return { acc2 with immediate := acc2.immediate ++ [item] }
  else
    return acc2

/-- The whole recommendation loop. -/
def recLoop : RecAcc → List PyVal → Except String RecAcc
  | acc, [] => .ok acc
  | acc, rec :: rest => do
      let acc1 ← recStep acc rec
      recLoop acc1 rest

/-- `ResultsRetriever._format_recommendations`. -/
def format_recommendations (recommendations : PyVal) : Except String PyVal := do
  if recommendations.truthy = false then
    return .dict [("message", .str "No specific recommendations generated")]
  let n ← pyLen recommendations
  let items ← pyIter recommendations
  let acc ← recLoop ⟨[], [], [], [], []⟩ items
  return .dict
    [("total_recommendations", .num n),
     ("by_priority", .dict
        [("high", .list acc.high), ("medium", .list acc.medium), ("low", .list acc.low)]),
     ("by_department", .dict (acc.byDept.map fun p => (p.1, PyVal.list p.2))),
     ("immediate_actions", .list acc.immediate),
     ("detailed_recommendations", recommendations)]

/-- `ResultsRetriever._structure_analysis_results`. -/
def structure_analysis_results (analysis_data : PyVal) : Except String PyVal :=
  if analysis_data.truthy = false then
    .ok (.dict [("summary", .str "Analysis results not available"),
                ("error", .str "No analysis data found")])
  else do
    let es ← pyGet analysis_data "executive_summary" (.str "Summary not available")
    let kp ← pyGet analysis_data "key_points" (.list [])
    let ci ← pyGet analysis_data "customer_impact" (.str "Not assessed")
    let recsv ← pyGet analysis_data "actionable_recommendations" (.list [])
    let ar ← format_recommendations recsv
    let esRaw ← pyGet analysis_data "executive_summary" PyVal.none
    return .dict
      [("executive_summary", es),
       ("key_insights", .dict
          [("main_points", kp), ("customer_impact_assessment", ci)]),
       ("actionable_recommendations", ar),
       ("analysis_confidence", .str (if esRaw.truthy then "High" else "Low"))]

/-- The base response dictionary built at the top of
`ResultsRetriever._format_response` (the `ttl` argument is the configured
`CACHE_TTL_SECONDS`). -/
def baseResponse (ttl : Nat) (record : Record) : Resp :=
  [("feedback_id", .str record.feedback_id),
   ("status", .str (record.status.getD "completed")),
   ("message", .str ((lookupStr status_messages (record.status.getD "completed")).getD
      "Analysis results available")),
   ("created_at", optStr record.created_at),
   ("updated_at", optStr record.updated_at),
   ("processing_timestamp", optStr record.processing_timestamp),
   ("request_id", optStr record.request_id),
   ("original_data", record.original_data.getD (.dict [])),
   ("cache_metadata", .dict
      [("cacheable", .bool (record.status.getD "completed" = "completed")),
       ("cache_ttl", .num ttl)])]

/-- `ResultsRetriever._format_response`: `record.get('status', 'completed')`
selects the branch; a `processing` record returns early with an estimated
completion; otherwise the extracted payload decides between the completed
rewrite and the failed downgrade. -/
def format_response (parse : String → Option PyVal) (ttl : Nat) (record : Record) :
    Except String Resp :=
  if record.status.getD "completed" = "processing" then
    .ok (respSet (baseResponse ttl record) "estimated_completion" (.str "Within 2-3 minutes"))
  else if (extract_analysis_data parse record).truthy then
    match structure_analysis_results (extract_analysis_data parse record) with
    | .error e => .error e
    | .ok structured =>
        .ok (respSet (respSet (respSet (baseResponse ttl record) "results" structured)
              "status" (.str "completed"))
            "message" (.str "Analysis completed successfully"))
  else
    .ok (respSet (respSet (respSet (baseResponse ttl record) "status" (.str "failed"))
          "message" (.str "Analysis results not found or corrupted"))
        "results" (.dict []))

/-- The state of the in-process cache backend (`in_memory_cache`): cache key,
stored response, and absolute expiry instant (`expires_at = now + ttl`). -/
abbrev CacheSt := List (String × Resp × Nat)

/-- `CacheManager._get_cache_key`. -/
def get_cache_key (feedback_id : String) : String := "feedback_results:" ++ feedback_id

/-- Lookup an entry of the cache state. -/
def lookupEntry : CacheSt → String → Option (Resp × Nat)
  | [], _ => Option.none
  | (k, d, e) :: rest, key => if k = key then some (d, e) else lookupEntry rest key

/-- Delete a key from the cache state (`in_memory_cache.pop(key, None)` /
`del in_memory_cache[key]`). -/
def removeEntry (st : CacheSt) (key : String) : CacheSt :=
  st.filter fun e => !(e.1 == key)

/-- Store an entry under a key, replacing any previous binding
(`in_memory_cache[cache_key] = ...`). -/
def setEntry : CacheSt → String → Resp → Nat → CacheSt
  | [], key, d, e => [(key, d, e)]
  | (k0, d0, e0) :: rest, key, d, e =>
      if k0 = key then (key, d, e) :: rest else (k0, d0, e0) :: setEntry rest key d e

/-- Injected faults of the external backends.  A `some msg` value makes the
corresponding `try` block behave as if the backend raised `msg`, taking the
`except` path of the source. -/
structure Faults where
  cacheGetFault : Option String
  cacheSetFault : Option String
  dbFault : Option String

/-- The fault-free environment. -/
def noFaults : Faults := ⟨Option.none, Option.none, Option.none⟩

/-- `CacheManager.get` over the in-process backend: on a backend fault the
`except` handler logs and returns `None`; otherwise the entry is returned when
unexpired, and an expired entry is deleted lazily and treated as a miss. -/
def cacheGet (fault : Option String) (now : Nat) (st : CacheSt) (feedback_id : String) :
    Option Resp × CacheSt :=
  match fault with
  | some _ => (Option.none, st)
  | Option.none =>
      match lookupEntry st (get_cache_key feedback_id) with
      | some (data, expires_at) =>
          if now < expires_at then (some data, st)
          else (Option.none, removeEntry st (get_cache_key feedback_id))
      | Option.none => (Option.none, st)

/-- `CacheManager.set`: store under `now + ttl`; on a backend fault the
`except` handler logs and returns `False` without touching the state. -/
def cacheSet (fault : Option String) (now ttl : Nat) (st : CacheSt) (feedback_id : String)
    (data : Resp) : Bool × CacheSt :=
  match fault with
  | some _ => (false, st)
  | Option.none => (true, setEntry st (get_cache_key feedback_id) data (now + ttl))

/-- `CacheManager.invalidate`: delete the key (absent keys are not an error);
on a backend fault the `except` handler logs and returns `False`. -/
def cacheInvalidate (fault : Option String) (st : CacheSt) (feedback_id : String) :
    Bool × CacheSt :=
  match fault with
  | some _ => (false, st)
  | Option.none => (true, removeEntry st (get_cache_key feedback_id))

/-- The not-found result of `ResultsRetriever.get_feedback_results`. -/
def notFoundResp (feedback_id : String) : Resp :=
  [("status", .str "not_found"),
   ("message", .str "Feedback ID not found"),
   ("feedback_id", .str feedback_id),
   ("cache_hit", .bool false),
   ("retrieved_from", .str "database")]

/-- The error result built by the `except` handler of
`ResultsRetriever.get_feedback_results`; `e` is the string of the caught
exception. -/
def errorResp (feedback_id e : String) : Resp :=
  [("status", .str "error"),
   ("message", .str ("Error retrieving results: " ++ e)),
   ("feedback_id", .str feedback_id),
   ("cache_hit", .bool false),
   ("retrieved_from", .str "error")]

/-- The `try` block of `get_feedback_results` after the cache check: query the
durable store (`state_table.query`, modelled as `db` returning the latest
record or nothing), format the record, tag the provenance fields, and cache
the result when its status is `completed` and `use_cache` is set.  Any fault
of the store or of the formatting helpers is caught and converted into
`errorResp`. -/
def fetchFromDb (flt : Faults) (db : String → Option Record)
    (parse : String → Option PyVal) (ttl now : Nat) (st : CacheSt)
    (feedback_id : String) (use_cache : Bool) : Resp × CacheSt :=
  match flt.dbFault with
  | some e => (errorResp feedback_id e, st)
  | Option.none =>
      match db feedback_id with
      | Option.none => (notFoundResp feedback_id, st)
      | some record =>
          match format_response parse ttl record with
          | Except.error e => (errorResp feedback_id e, st)
          | Except.ok r0 =>
              let result := respSet (respSet r0 "cache_hit" (PyVal.bool false))
                "retrieved_from" (PyVal.str "database")
              if use_cache && pyEqStr (respGet result "status") "completed" then
                (result, (cacheSet flt.cacheSetFault now ttl st feedback_id result).snd)
              else (result, st)

/-- `ResultsRetriever.get_feedback_results`.  `if cached_result:` is a Python
truthiness test, so an (unreachable in practice) empty cached dictionary is
treated as a miss.  On a hit the code returns the cached dictionary with
`cache_hit`/`retrieved_from` overwritten; the in-process backend aliases the
stored dictionary, but re-overwriting the same two provenance fields on every
hit makes that mutation observationally equivalent to the value semantics
used here. -/
def get_feedback_results (flt : Faults) (db : String → Option Record)
    (parse : String → Option PyVal) (ttl now : Nat) (st : CacheSt)
    (feedback_id : String) (use_cache : Bool) : Resp × CacheSt :=
  match (if use_cache then cacheGet flt.cacheGetFault now st feedback_id
         else (Option.none, st)) with
  | (some cached, st1) =>
      if cached.isEmpty then fetchFromDb flt db parse ttl now st1 feedback_id use_cache
      else (respSet (respSet cached "cache_hit" (PyVal.bool true))
              "retrieved_from" (PyVal.str "cache"), st1)
  | (Option.none, st1) => fetchFromDb flt db parse ttl now st1 feedback_id use_cache

/-- `ResultsRetriever.invalidate_cache`. -/
def invalidate_cache (fault : Option String) (st : CacheSt) (feedback_id : String) :
    Bool × CacheSt :=
  cacheInvalidate fault st feedback_id

/-- Cache states reachable through the public operations of the retrieval
subsystem, starting from the empty cache, against a fixed durable store. -/
inductive Reachable (db : String → Option Record) : CacheSt → Prop where
  | init : Reachable db []
  | fetch (flt : Faults) (parse : String → Option PyVal) (ttl now : Nat)
      (fid : String) (uc : Bool) (st : CacheSt) :
      Reachable db st →
      Reachable db (get_feedback_results flt db parse ttl now st fid uc).snd
  | inval (fault : Option String) (fid : String) (st : CacheSt) :
      Reachable db st →
      Reachable db (invalidate_cache fault st fid).snd

/-- Whether an `Except` computation succeeded. -/
def exceptOk {α : Type} : Except String α → Bool
  | .ok _ => true
  | .error _ => false

/-- The response of a successful formatting step (the empty dictionary when
the step raised; only used under an `exceptOk` hypothesis). -/
def okResp : Except String Resp → Resp
  | .ok r => r
  | .error _ => []

theorem respSet_ne_nil (r : Resp) (k : String) (v : PyVal) : respSet r k v ≠ [] := by
  cases r with
  | nil => simp [respSet]
  | cons hd tl =>
      obtain ⟨k0, v0⟩ := hd
      by_cases h : k0 = k <;> simp [respSet, h]

theorem respGet_respSet_self (r : Resp) (k : String) (v : PyVal) :
    respGet (respSet r k v) k = some v := by
  induction r with
  | nil => simp [respSet, respGet]
  | cons hd tl ih =>
      obtain ⟨k0, v0⟩ := hd
      by_cases h : k0 = k <;> simp [respSet, respGet, h, ih]

theorem respGet_respSet_ne (r : Resp) (k k' : String) (v : PyVal) (h : k ≠ k') :
    respGet (respSet r k v) k' = respGet r k' := by
  induction r with
  | nil => simp [respSet, respGet, h]
  | cons hd tl ih =>
      obtain ⟨k0, v0⟩ := hd
      by_cases h0 : k0 = k <;> simp [respSet, respGet, h0, h, ih]

theorem pyEqStr_true_iff (v : Option PyVal) (s : String) :
    pyEqStr v s = true ↔ v = some (PyVal.str s) := by
  cases v with
  | none => simp [pyEqStr]
  | some w => cases w <;> simp [pyEqStr]

theorem lookupEntry_setEntry_self (st : CacheSt) (k : String) (d : Resp) (e : Nat) :
    lookupEntry (setEntry st k d e) k = some (d, e) := by
  induction st with
  | nil => simp [setEntry, lookupEntry]
  | cons hd tl ih =>
      obtain ⟨k0, d0, e0⟩ := hd
      by_cases h : k0 = k <;> simp [setEntry, lookupEntry, h, ih]

theorem lookupEntry_setEntry_ne (st : CacheSt) (k k' : String) (d : Resp) (e : Nat)
    (h : k ≠ k') : lookupEntry (setEntry st k d e) k' = lookupEntry st k' := by
  induction st with
  | nil => simp [setEntry, lookupEntry, h]
  | cons hd tl ih =>
      obtain ⟨k0, d0, e0⟩ := hd
      by_cases h0 : k0 = k <;> simp [setEntry, lookupEntry, h0, h, ih]

theorem lookupEntry_removeEntry_self (st : CacheSt) (k : String) :
    lookupEntry (removeEntry st k) k = Option.none := by
  induction st with
  | nil => rfl
  | cons hd tl ih =>
      obtain ⟨k0, d0, e0⟩ := hd
      by_cases h : k0 = k <;> simp [removeEntry, List.filter_cons, h, lookupEntry, ih] <;>
        simpa [removeEntry] using ih

theorem removeEntry_idem (st : CacheSt) (k : String) :
    removeEntry (removeEntry st k) k = removeEntry st k := by
  simp [removeEntry, List.filter_filter]

theorem lookupEntry_removeEntry_absent (st : CacheSt) (k k' : String)
    (h : lookupEntry st k = Option.none) :
    lookupEntry (removeEntry st k') k = Option.none := by
  induction st with
  | nil => rfl
  | cons hd tl ih =>
      obtain ⟨k0, d0, e0⟩ := hd
      by_cases h0 : k0 = k
      · simp [lookupEntry, h0] at h
      · simp [lookupEntry, h0] at h
        by_cases h1 : k0 = k' <;>
          simp [removeEntry, List.filter_cons, h1, lookupEntry, h0] <;>
          simpa [removeEntry] using ih h

theorem get_cache_key_inj (a b : String) (h : get_cache_key a = get_cache_key b) : a = b := by
  unfold get_cache_key at h
  have hd : ("feedback_results:" ++ a).data = ("feedback_results:" ++ b).data := by rw [h]
  simp only [String.data_append] at hd
  have := List.append_cancel_left hd
  exact String.ext this

theorem format_response_completed_of (parse : String → Option PyVal) (ttl : Nat)
    (record : Record) (structured : PyVal)
    (hproc : record.status.getD "completed" ≠ "processing")
    (hex : (extract_analysis_data parse record).truthy = true)
    (hs : structure_analysis_results (extract_analysis_data parse record) = .ok structured) :
    format_response parse ttl record =
      .ok (respSet (respSet (respSet (baseResponse ttl record) "results" structured)
            "status" (PyVal.str "completed"))
          "message" (PyVal.str "Analysis completed successfully")) := by
  unfold format_response
  rw [if_neg hproc, if_pos hex, hs]

theorem format_response_failed_of (parse : String → Option PyVal) (ttl : Nat)
    (record : Record)
    (hproc : record.status.getD "completed" ≠ "processing")
    (hex : (extract_analysis_data parse record).truthy = false) :
    format_response parse ttl record =
      .ok (respSet (respSet (respSet (baseResponse ttl record) "status" (PyVal.str "failed"))
            "message" (PyVal.str "Analysis results not found or corrupted"))
          "results" (PyVal.dict [])) := by
  unfold format_response
  rw [if_neg hproc, if_neg (by simp [hex])]

/-- C7: `invalidateCache` is idempotent — in normal backend operation it
returns `True` on any state (in particular on an absent or already-deleted
key, which is not an error), leaves the entry absent afterwards, and a second
invalidation is a no-op. -/
theorem C7_invalidate_idempotent (st : CacheSt) (fid : String) :
    (invalidate_cache Option.none st fid).fst = true ∧
    lookupEntry (invalidate_cache Option.none st fid).snd (get_cache_key fid) = Option.none ∧
    invalidate_cache Option.none (invalidate_cache Option.none st fid).snd fid =
      invalidate_cache Option.none st fid := by
  refine ⟨rfl, ?_, ?_⟩
  · simpa [invalidate_cache, cacheInvalidate] using
      lookupEntry_removeEntry_self st (get_cache_key fid)
  · simp [invalidate_cache, cacheInvalidate, removeEntry_idem]

/-- C6: the cache-store operations never raise toward their caller — on a
backend fault `get` returns absent and `set` returns `False`, both leaving
the local state alone, and a retrieval whose cache lookup faults returns the
same result as a cache-disabled retrieval (it fails open toward the durable
store). -/
theorem C6_cache_faults_fail_open (e1 e2 : String) (scf dbf : Option String)
    (now ttl : Nat) (st : CacheSt) (fid : String) (data : Resp)
    (db : String → Option Record) (parse : String → Option PyVal) :
    cacheGet (some e1) now st fid = (Option.none, st) ∧
    cacheSet (some e2) now ttl st fid data = (false, st) ∧
    (get_feedback_results ⟨some e1, scf, dbf⟩ db parse ttl now st fid true).fst =
      (get_feedback_results ⟨Option.none, Option.none, dbf⟩ db parse ttl now st fid false).fst := by
  refine ⟨rfl, rfl, ?_⟩
  show (fetchFromDb ⟨some e1, scf, dbf⟩ db parse ttl now st fid true).fst =
    (fetchFromDb ⟨Option.none, Option.none, dbf⟩ db parse ttl now st fid false).fst
  cases dbf with
  | some e => rfl
  | none =>
      cases hq : db fid with
      | none => simp [fetchFromDb, hq]
      | some record =>
          cases hf : format_response parse ttl record with
          | error e => simp [fetchFromDb, hq, hf]
          | ok r0 =>
              simp only [fetchFromDb, hq, hf, Bool.true_and, Bool.false_and, if_false,
                Bool.false_eq_true]
              split <;> rfl

/-- C5: a fault raised by the durable store inside `get_feedback_results`
(reached on a cache miss or with the cache disabled) is caught and converted
into the structured error result; the operation's total return type embodies
that no fault crosses the public boundary. -/
theorem C5_db_fault_converted (flt : Faults) (db : String → Option Record)
    (parse : String → Option PyVal) (ttl now : Nat) (st : CacheSt) (fid e : String)
    (uc : Bool) (hdb : flt.dbFault = some e)
    (hmiss : uc = false ∨ (cacheGet flt.cacheGetFault now st fid).fst = Option.none) :
    (get_feedback_results flt db parse ttl now st fid uc).fst = errorResp fid e := by
  cases uc with
  | false => simp [get_feedback_results, fetchFromDb, hdb]
  | true =>
      rcases hg : cacheGet flt.cacheGetFault now st fid with ⟨copt, st1⟩
      have hc : copt = Option.none := by
        rcases hmiss with h | h
        · cases h
        · rw [hg] at h; exact h
      subst hc
      simp [get_feedback_results, hg, fetchFromDb, hdb]

/-- C2: when the cache holds an unexpired entry (a non-empty cached response)
and the cache backend does not fault, a `use_cache` retrieval returns exactly
that entry with `cache_hit`/`retrieved_from` overwritten and touches nothing
else — the result does not depend on the durable store at all (the `db`
argument is absent from the right-hand side), which is the no-durable-access
contract. -/
theorem C2_cache_hit_no_db (flt : Faults) (db : String → Option Record)
    (parse : String → Option PyVal) (ttl now : Nat) (st : CacheSt) (fid : String)
    (data : Resp) (expires : Nat)
    (hget : flt.cacheGetFault = Option.none)
    (hlook : lookupEntry st (get_cache_key fid) = some (data, expires))
    (hexp : now < expires) (hne : data ≠ []) :
    get_feedback_results flt db parse ttl now st fid true =
      (respSet (respSet data "cache_hit" (PyVal.bool true))
        "retrieved_from" (PyVal.str "cache"), st) := by
  have hcg : cacheGet flt.cacheGetFault now st fid = (some data, st) := by
    rw [hget]; unfold cacheGet; rw [hlook]; simp [hexp]
  simp [get_feedback_results, hcg, List.isEmpty_iff, hne]

/-- A `json.loads` model in which every stored string is malformed (fails to
parse). -/
def parseFail : String → Option PyVal := fun _ => Option.none

/-- A stored record still in `processing` status, with no analysis payload. -/
def procRecord : Record :=
  ⟨"P1", some "processing", Option.none, Option.none, Option.none, Option.none,
   Option.none, Option.none, Option.none⟩

/-- A record whose stored payload is a malformed JSON string. -/
def malformedRecord : Record :=
  ⟨"B1", some "completed", Option.none, Option.none, Option.none, Option.none,
   Option.none, some (PyVal.str "\x7bnot valid json"), Option.none⟩

/-- C8 counterexample: a record still in `processing` status also has no
extractable analysis payload, yet `_format_response` returns it with status
`processing`, not the claimed forced `failed`. -/
theorem C8_counterexample :
    (extract_analysis_data parseFail procRecord).truthy = false ∧
    respGet (okResp (format_response parseFail 300 procRecord)) "status" =
      some (PyVal.str "processing") ∧
    respGet (okResp (format_response parseFail 300 procRecord)) "status" ≠
      some (PyVal.str "failed") := by
  refine ⟨rfl, rfl, ?_⟩
  intro h
  rw [show respGet (okResp (format_response parseFail 300 procRecord)) "status" =
    some (PyVal.str "processing") from rfl] at h
  simp at h

/-- C8 (amended): for every stored record that is not reported as
`processing` and from which no analysis payload can be extracted by the
ordered extraction policy (including a malformed stored payload), the
response has status forced to `failed`, the corruption message, and empty
results — even if the stored status field said otherwise. -/
theorem C8_unextractable_forced_failed (parse : String → Option PyVal) (ttl : Nat)
    (record : Record)
    (hproc : record.status.getD "completed" ≠ "processing")
    (hex : (extract_analysis_data parse record).truthy = false) :
    respGet (okResp (format_response parse ttl record)) "status" =
      some (PyVal.str "failed") ∧
    respGet (okResp (format_response parse ttl record)) "message" =
      some (PyVal.str "Analysis results not found or corrupted") ∧
    respGet (okResp (format_response parse ttl record)) "results" =
      some (PyVal.dict []) := by
  rw [format_response_failed_of parse ttl record hproc hex]
  refine ⟨?_, ?_, ?_⟩
  · rw [okResp, respGet_respSet_ne _ _ _ _ (by decide),
      respGet_respSet_ne _ _ _ _ (by decide), respGet_respSet_self]
  · rw [okResp, respGet_respSet_ne _ _ _ _ (by decide), respGet_respSet_self]
  · rw [okResp, respGet_respSet_self]

theorem C8_witness :
    respGet (okResp (format_response parseFail 300 malformedRecord)) "status" =
      some (PyVal.str "failed") ∧
    respGet (okResp (format_response parseFail 300 malformedRecord)) "message" =
      some (PyVal.str "Analysis results not found or corrupted") ∧
    respGet (okResp (format_response parseFail 300 malformedRecord)) "results" =
      some (PyVal.dict []) :=
  C8_unextractable_forced_failed parseFail 300 malformedRecord (by decide) rfl

/-- A completed record with a well-formed nested analysis payload. -/
def goodRecord : Record :=
  ⟨"A1", some "completed", Option.none, Option.none, Option.none, Option.none,
   Option.none,
   some (PyVal.dict [("analysis", PyVal.dict [("executive_summary", PyVal.str "Good")])]),
   Option.none⟩

theorem C5_witness :
    (get_feedback_results ⟨Option.none, Option.none, some "boom"⟩
        (fun _ => some goodRecord) parseFail 300 0 [] "A1" true).fst =
      errorResp "A1" "boom" :=
  C5_db_fault_converted ⟨Option.none, Option.none, some "boom"⟩
    (fun _ => some goodRecord) parseFail 300 0 [] "A1" "boom" true rfl (Or.inr rfl)

theorem C2_witness :
    get_feedback_results noFaults (fun _ => some goodRecord) parseFail 300 5
        [("feedback_results:A1", [("status", PyVal.str "completed")], 100)] "A1" true =
      (respSet (respSet [("status", PyVal.str "completed")] "cache_hit" (PyVal.bool true))
        "retrieved_from" (PyVal.str "cache"),
       [("feedback_results:A1", [("status", PyVal.str "completed")], 100)]) :=
  C2_cache_hit_no_db noFaults (fun _ => some goodRecord) parseFail 300 5
    [("feedback_results:A1", [("status", PyVal.str "completed")], 100)] "A1"
    [("status", PyVal.str "completed")] 100 rfl rfl (by decide) (by simp)

theorem respGet_baseResponse_status (ttl : Nat) (record : Record) :
    respGet (baseResponse ttl record) "status" =
      some (PyVal.str (record.status.getD "completed")) := by
  simp [baseResponse, respGet]

theorem format_response_status_mem (parse : String → Option PyVal) (ttl : Nat)
    (record : Record) (r : Resp) (h : format_response parse ttl record = .ok r) :
    respGet r "status" = some (PyVal.str "processing") ∨
    respGet r "status" = some (PyVal.str "completed") ∨
    respGet r "status" = some (PyVal.str "failed") := by
  unfold format_response at h
  by_cases h1 : record.status.getD "completed" = "processing"
  · rw [if_pos h1] at h
    injection h with h
    subst h
    left
    rw [respGet_respSet_ne _ _ _ _ (by decide), respGet_baseResponse_status, h1]
  · rw [if_neg h1] at h
    by_cases h2 : (extract_analysis_data parse record).truthy
    · rw [if_pos h2] at h
      cases hs : structure_analysis_results (extract_analysis_data parse record) with
      | error e => rw [hs] at h; cases h
      | ok structured =>
          rw [hs] at h
          injection h with h
          subst h
          right; left
          rw [respGet_respSet_ne _ _ _ _ (by decide), respGet_respSet_self]
    · rw [if_neg h2] at h
      injection h with h
      subst h
      right; right
      rw [respGet_respSet_ne _ _ _ _ (by decide),
        respGet_respSet_ne _ _ _ _ (by decide), respGet_respSet_self]

/-- C3: with the cache initially holding nothing for the id and no backend
fault, a retrieval populates the cache exactly when it ran with
`use_cache = true` and its own result has status `completed`; `processing`,
`failed`, `not_found` and `error` outcomes — and cache-disabled calls — leave
the entry absent. -/
theorem C3_cache_populated_iff_completed (db : String → Option Record)
    (parse : String → Option PyVal) (ttl now : Nat) (st : CacheSt) (fid : String)
    (uc : Bool) (habs : lookupEntry st (get_cache_key fid) = Option.none) :
    (lookupEntry (get_feedback_results noFaults db parse ttl now st fid uc).snd
        (get_cache_key fid) ≠ Option.none) ↔
      (uc = true ∧
        respGet (get_feedback_results noFaults db parse ttl now st fid uc).fst "status" =
          some (PyVal.str "completed")) := by
  have hmain : get_feedback_results noFaults db parse ttl now st fid uc =
      fetchFromDb noFaults db parse ttl now st fid uc := by
    cases uc <;> simp [get_feedback_results, cacheGet, noFaults, habs]
  rw [hmain]
  cases hq : db fid with
  | none =>
      simp only [fetchFromDb, hq, noFaults]
      constructor
      · intro hL; exact absurd habs hL
      · rintro ⟨-, hst⟩
        rw [show respGet (notFoundResp fid) "status" = some (PyVal.str "not_found")
          from rfl] at hst
        simp at hst
  | some record =>
      cases hf : format_response parse ttl record with
      | error e =>
          simp only [fetchFromDb, hq, hf, noFaults]
          constructor
          · intro hL; exact absurd habs hL
          · rintro ⟨-, hst⟩
            rw [show respGet (errorResp fid e) "status" = some (PyVal.str "error")
              from rfl] at hst
            simp at hst
      | ok r0 =>
          simp only [fetchFromDb, hq, hf, noFaults]
          cases uc with
          | false =>
              simp only [Bool.false_and, Bool.false_eq_true, if_false]
              constructor
              · intro hL; exact absurd habs hL
              · rintro ⟨h0, -⟩; cases h0
          | true =>
              simp only [Bool.true_and]
              cases hc : pyEqStr (respGet (respSet (respSet r0 "cache_hit" (PyVal.bool false))
                  "retrieved_from" (PyVal.str "database")) "status") "completed" with
              | true =>
                  simp only [if_true, cacheSet, noFaults]
                  constructor
                  · intro _
                    exact ⟨by trivial, (pyEqStr_true_iff _ _).mp hc⟩
                  · intro _
                    rw [lookupEntry_setEntry_self]
                    simp
              | false =>
                  simp only [Bool.false_eq_true, if_false]
                  constructor
                  · intro hL; exact absurd habs hL
                  · rintro ⟨-, hst⟩
                    rw [← pyEqStr_true_iff] at hst
                    rw [hc] at hst
                    cases hst

theorem C3_witness :
    (lookupEntry (get_feedback_results noFaults (fun _ => some goodRecord) parseFail
        300 0 [] "A1" true).snd (get_cache_key "A1") ≠ Option.none) ↔
      (true = true ∧
        respGet (get_feedback_results noFaults (fun _ => some goodRecord) parseFail
          300 0 [] "A1" true).fst "status" = some (PyVal.str "completed")) :=
  C3_cache_populated_iff_completed (fun _ => some goodRecord) parseFail 300 0 [] "A1" true rfl

theorem cacheGet_snd_absent (fault : Option String) (now : Nat) (st : CacheSt)
    (fid2 k : String) (habs : lookupEntry st k = Option.none) :
    lookupEntry (cacheGet fault now st fid2).snd k = Option.none := by
  cases fault with
  | some e => simpa [cacheGet] using habs
  | none =>
      unfold cacheGet
      cases hl : lookupEntry st (get_cache_key fid2) with
      | none => simpa using habs
      | some p =>
          obtain ⟨d, ex⟩ := p
          by_cases hlt : now < ex
          · simpa [hlt] using habs
          · simp only [hlt, if_false]
            exact lookupEntry_removeEntry_absent st k _ habs

theorem fetchFromDb_snd_absent (flt : Faults) (db : String → Option Record)
    (parse : String → Option PyVal) (ttl now : Nat) (st : CacheSt)
    (fid2 : String) (uc : Bool) (fid : String)
    (hdb : db fid = Option.none)
    (habs : lookupEntry st (get_cache_key fid) = Option.none) :
    lookupEntry (fetchFromDb flt db parse ttl now st fid2 uc).snd (get_cache_key fid) =
      Option.none := by
  cases hfl : flt.dbFault with
  | some e => simpa [fetchFromDb, hfl] using habs
  | none =>
      cases hq : db fid2 with
      | none => simpa [fetchFromDb, hfl, hq] using habs
      | some record =>
          have hne : fid2 ≠ fid := by
            intro hEq
            rw [hEq, hdb] at hq
            cases hq
          cases hf : format_response parse ttl record with
          | error e => simpa [fetchFromDb, hfl, hq, hf] using habs
          | ok r0 =>
              simp only [fetchFromDb, hfl, hq, hf]
              split
              · cases hsf : flt.cacheSetFault with
                | some e2 => simpa [cacheSet, hsf] using habs
                | none =>
                    simp only [cacheSet, hsf]
                    rw [lookupEntry_setEntry_ne st _ _ _ _
                      (fun hk => hne (get_cache_key_inj _ _ hk))]
                    exact habs
              · simpa using habs

theorem gfr_snd_absent (flt : Faults) (db : String → Option Record)
    (parse : String → Option PyVal) (ttl now : Nat) (st : CacheSt)
    (fid2 : String) (uc : Bool) (fid : String)
    (hdb : db fid = Option.none)
    (habs : lookupEntry st (get_cache_key fid) = Option.none) :
    lookupEntry (get_feedback_results flt db parse ttl now st fid2 uc).snd
      (get_cache_key fid) = Option.none := by
  cases uc with
  | false =>
      simpa [get_feedback_results] using
        fetchFromDb_snd_absent flt db parse ttl now st fid2 false fid hdb habs
  | true =>
      rcases hcg : cacheGet flt.cacheGetFault now st fid2 with ⟨copt, st1⟩
      have h1 : lookupEntry st1 (get_cache_key fid) = Option.none := by
        have := cacheGet_snd_absent flt.cacheGetFault now st fid2 (get_cache_key fid) habs
        rwa [hcg] at this
      cases copt with
      | none =>
          simpa [get_feedback_results, hcg] using
            fetchFromDb_snd_absent flt db parse ttl now st1 fid2 true fid hdb h1
      | some c =>
          by_cases hc : c.isEmpty
          · simpa [get_feedback_results, hcg, hc] using
              fetchFromDb_snd_absent flt db parse ttl now st1 fid2 true fid hdb h1
          · simpa [get_feedback_results, hcg, hc] using h1

theorem reachable_absent_of_db_none (db : String → Option Record) (st : CacheSt)
    (h : Reachable db st) (fid : String) (hdb : db fid = Option.none) :
    lookupEntry st (get_cache_key fid) = Option.none := by
  induction h with
  | init => rfl
  | fetch flt parse ttl now fid2 uc st0 _ ih =>
      exact gfr_snd_absent flt db parse ttl now st0 fid2 uc fid hdb ih
  | inval fault fid2 st0 _ ih =>
      cases fault with
      | some e => simpa [invalidate_cache, cacheInvalidate] using ih
      | none =>
          simp only [invalidate_cache, cacheInvalidate]
          exact lookupEntry_removeEntry_absent st0 _ _ ih

/-- C4: in every state the subsystem can reach, a retrieval for an id with no
durable record (and a responsive durable store) returns the `not_found`
structured result — with `cache_hit = false` and `retrieved_from = database`
among its fields — regardless of `use_cache`; the total return type embodies
that this outcome is returned, not raised. -/
theorem C4_not_found (db : String → Option Record) (st : CacheSt)
    (hreach : Reachable db st) (flt : Faults) (parse : String → Option PyVal)
    (ttl now : Nat) (uc : Bool) (fid : String)
    (hdb : db fid = Option.none) (hfl : flt.dbFault = Option.none) :
    (get_feedback_results flt db parse ttl now st fid uc).fst = notFoundResp fid := by
  have habs := reachable_absent_of_db_none db st hreach fid hdb
  cases uc with
  | false => simp [get_feedback_results, fetchFromDb, hfl, hdb]
  | true =>
      rcases hcg : cacheGet flt.cacheGetFault now st fid with ⟨copt, st1⟩
      have hnone : copt = Option.none := by
        cases hflt : flt.cacheGetFault with
        | some e =>
            rw [hflt] at hcg
            unfold cacheGet at hcg
            injection hcg with h1 h2
            exact h1.symm
        | none =>
            rw [hflt] at hcg
            unfold cacheGet at hcg
            rw [habs] at hcg
            injection hcg with h1 h2
            exact h1.symm
      subst hnone
      simp [get_feedback_results, hcg, fetchFromDb, hfl, hdb]

theorem C4_witness :
    (get_feedback_results noFaults (fun _ => Option.none) parseFail 300 0 [] "Z" true).fst =
      notFoundResp "Z" :=
  C4_not_found (fun _ => Option.none) [] Reachable.init noFaults parseFail 300 0 true "Z"
    rfl rfl

/-- Total number of recommendations landing in the three priority buckets. -/
def sum3 (acc : RecAcc) : Nat :=
  acc.high.length + acc.medium.length + acc.low.length

theorem addPriority_sum3 (acc : RecAcc) (p : String) (rec : PyVal) :
    sum3 (addPriority acc p rec) ≤ sum3 acc + 1 := by
  unfold addPriority
  repeat' split
  all_goals simp only [sum3, List.length_append, List.length_cons, List.length_nil]
  all_goals omega

theorem recStep_sum3 (acc : RecAcc) (rec : PyVal) (acc' : RecAcc)
    (h : recStep acc rec = .ok acc') : sum3 acc' ≤ sum3 acc + 1 := by
  unfold recStep at h
  cases h1 : pyGet rec "priority" (PyVal.str "medium") with
  | error e => simp [h1, bind, Except.bind] at h
  | ok pv =>
  cases h2 : pyLower pv with
  | error e => simp [h1, h2, bind, Except.bind] at h
  | ok priority =>
  cases h3 : pyGet rec "department" (PyVal.str "General") with
  | error e => simp [h1, h2, h3, bind, Except.bind] at h
  | ok dv =>
  cases h4 : pyKeyStr dv with
  | error e => simp [h1, h2, h3, h4, bind, Except.bind] at h
  | ok dk =>
  simp only [h1, h2, h3, h4, bind, Except.bind] at h
  by_cases hp : priority = "high"
  · simp only [hp, if_true, pure, Except.pure] at h
    cases h5 : pyGet rec "action" (PyVal.str "") with
    | error e => simp [h5, bind, Except.bind] at h
    | ok act =>
    cases h6 : pyGet rec "timeline" (PyVal.str "") with
    | error e => simp [h5, h6, bind, Except.bind] at h
    | ok tl2 =>
    simp only [h5, h6, bind, Except.bind, if_true, Except.ok.injEq] at h
    subst h
    simpa [sum3] using addPriority_sum3 acc "high" rec
  · simp only [hp, if_false] at h
    cases h5 : pyGet rec "timeline" (PyVal.str "") with
    | error e => simp [h5, bind, Except.bind] at h
    | ok tl =>
    cases h6 : pyLower tl with
    | error e => simp [h5, h6, bind, Except.bind] at h
    | ok tls =>
    simp only [h5, h6, bind, Except.bind, pure, Except.pure] at h
    by_cases hu : urgencyPhrases.contains tls
    · simp only [hu, if_true] at h
      cases h7 : pyGet rec "action" (PyVal.str "") with
      | error e => simp [h7, bind, Except.bind] at h
      | ok act =>
      simp only [h7, bind, Except.bind, Except.ok.injEq] at h
      subst h
      simpa [sum3] using addPriority_sum3 acc priority rec
    · simp only [hu, if_false, Bool.false_eq_true, Except.ok.injEq] at h
      subst h
      simpa [sum3] using addPriority_sum3 acc priority rec

theorem recLoop_sum3 (l : List PyVal) : ∀ acc acc' : RecAcc,
    recLoop acc l = .ok acc' → sum3 acc' ≤ sum3 acc + l.length := by
  induction l with
  | nil =>
      intro acc acc' h
      unfold recLoop at h
      injection h with h
      subst h
      simp
  | cons rec rest ih =>
      intro acc acc' h
      unfold recLoop at h
      cases h1 : recStep acc rec with
      | error e => simp [h1, bind, Except.bind] at h
      | ok acc1 =>
          simp only [h1, bind, Except.bind] at h
          have hrec := recStep_sum3 acc rec acc1 h1
          have := ih acc1 acc' h
          simp only [List.length_cons]
          omega

/-- C9: for every input sequence of recommendations on which the grouping
transform succeeds, the priority buckets together hold at most as many items
as the input, `total_recommendations` equals the input length, and
`detailed_recommendations` is the input sequence itself, unchanged; the empty
sequence yields the bare message dictionary instead of the grouped
structure. -/
theorem C9_grouping_partition (recoms : List PyVal) (out : PyVal)
    (h : format_recommendations (PyVal.list recoms) = .ok out) :
    (recoms = [] →
      out = .dict [("message", .str "No specific recommendations generated")]) ∧
    (recoms ≠ [] → ∃ hi med lo : List PyVal,
      dictLookup out "by_priority" =
        some (.dict [("high", .list hi), ("medium", .list med), ("low", .list lo)]) ∧
      hi.length + med.length + lo.length ≤ recoms.length ∧
      dictLookup out "total_recommendations" = some (.num recoms.length) ∧
      dictLookup out "detailed_recommendations" = some (.list recoms)) := by
  cases recoms with
  | nil =>
      constructor
      · intro _
        unfold format_recommendations at h
        simp only [PyVal.truthy, List.isEmpty_nil, Bool.not_true, pure, Except.pure,
          Except.ok.injEq, reduceIte] at h
        exact h.symm
      · intro hne
        exact absurd rfl hne
  | cons a rest =>
      constructor
      · intro hc
        exact absurd hc (by simp)
      intro _
      unfold format_recommendations at h
      simp only [PyVal.truthy, List.isEmpty_cons, Bool.not_false, pyLen, pyIter,
        bind, Except.bind, pure, Except.pure, reduceIte] at h
      cases hr : recLoop ⟨[], [], [], [], []⟩ (a :: rest) with
      | error e => rw [hr] at h; cases h
      | ok acc =>
          rw [hr] at h
          rw [if_neg (by simp)] at h
          simp only [Except.ok.injEq] at h
          subst h
          refine ⟨acc.high, acc.medium, acc.low, ?_, ?_, ?_, ?_⟩
          · simp [dictLookup, respGet]
          · have := recLoop_sum3 (a :: rest) ⟨[], [], [], [], []⟩ acc hr
            simpa [sum3] using this
          · simp [dictLookup, respGet]
          · simp [dictLookup, respGet]

/-- A recommendation with only a high priority set. -/
def recHigh : PyVal := PyVal.dict [("priority", PyVal.str "high")]

theorem C9_witness :
    (([recHigh] : List PyVal) = [] →
      (PyVal.dict
        [("total_recommendations", PyVal.num 1),
         ("by_priority", PyVal.dict
            [("high", PyVal.list [recHigh]), ("medium", PyVal.list []),
             ("low", PyVal.list [])]),
         ("by_department", PyVal.dict [("General", PyVal.list [recHigh])]),
         ("immediate_actions", PyVal.list [PyVal.dict
            [("action", PyVal.str ""), ("department", PyVal.str "General"),
             ("timeline", PyVal.str ""), ("priority", PyVal.str "high")]]),
         ("detailed_recommendations", PyVal.list [recHigh])]) =
        .dict [("message", .str "No specific recommendations generated")]) ∧
    (([recHigh] : List PyVal) ≠ [] → ∃ hi med lo : List PyVal,
      dictLookup (PyVal.dict
        [("total_recommendations", PyVal.num 1),
         ("by_priority", PyVal.dict
            [("high", PyVal.list [recHigh]), ("medium", PyVal.list []),
             ("low", PyVal.list [])]),
         ("by_department", PyVal.dict [("General", PyVal.list [recHigh])]),
         ("immediate_actions", PyVal.list [PyVal.dict
            [("action", PyVal.str ""), ("department", PyVal.str "General"),
             ("timeline", PyVal.str ""), ("priority", PyVal.str "high")]]),
         ("detailed_recommendations", PyVal.list [recHigh])]) "by_priority" =
        some (.dict [("high", .list hi), ("medium", .list med), ("low", .list lo)]) ∧
      hi.length + med.length + lo.length ≤ ([recHigh] : List PyVal).length ∧
      dictLookup (PyVal.dict
        [("total_recommendations", PyVal.num 1),
         ("by_priority", PyVal.dict
            [("high", PyVal.list [recHigh]), ("medium", PyVal.list []),
             ("low", PyVal.list [])]),
         ("by_department", PyVal.dict [("General", PyVal.list [recHigh])]),
         ("immediate_actions", PyVal.list [PyVal.dict
            [("action", PyVal.str ""), ("department", PyVal.str "General"),
             ("timeline", PyVal.str ""), ("priority", PyVal.str "high")]]),
         ("detailed_recommendations", PyVal.list [recHigh])]) "total_recommendations" =
        some (.num ([recHigh] : List PyVal).length) ∧
      dictLookup (PyVal.dict
        [("total_recommendations", PyVal.num 1),
         ("by_priority", PyVal.dict
            [("high", PyVal.list [recHigh]), ("medium", PyVal.list []),
             ("low", PyVal.list [])]),
         ("by_department", PyVal.dict [("General", PyVal.list [recHigh])]),
         ("immediate_actions", PyVal.list [PyVal.dict
            [("action", PyVal.str ""), ("department", PyVal.str "General"),
             ("timeline", PyVal.str ""), ("priority", PyVal.str "high")]]),
         ("detailed_recommendations", PyVal.list [recHigh])]) "detailed_recommendations" =
        some (.list [recHigh])) :=
  C9_grouping_partition [recHigh]
    (PyVal.dict
      [("total_recommendations", PyVal.num 1),
       ("by_priority", PyVal.dict
          [("high", PyVal.list [recHigh]), ("medium", PyVal.list []),
           ("low", PyVal.list [])]),
       ("by_department", PyVal.dict [("General", PyVal.list [recHigh])]),
       ("immediate_actions", PyVal.list [PyVal.dict
          [("action", PyVal.str ""), ("department", PyVal.str "General"),
           ("timeline", PyVal.str ""), ("priority", PyVal.str "high")]]),
       ("detailed_recommendations", PyVal.list [recHigh])]) rfl

theorem gfr_cache_hit (flt : Faults) (db : String → Option Record)
    (parse : String → Option PyVal) (ttl now : Nat) (st : CacheSt) (fid : String)
    (data : Resp) (expires : Nat)
    (hget : flt.cacheGetFault = Option.none)
    (hlook : lookupEntry st (get_cache_key fid) = some (data, expires))
    (hexp : now < expires) (hne : data ≠ []) :
    get_feedback_results flt db parse ttl now st fid true =
      (respSet (respSet data "cache_hit" (PyVal.bool true))
        "retrieved_from" (PyVal.str "cache"), st) := by
  have hcg : cacheGet flt.cacheGetFault now st fid = (some data, st) := by
    rw [hget]; unfold cacheGet; rw [hlook]; simp [hexp]
  simp [get_feedback_results, hcg, List.isEmpty_iff, hne]

theorem gfr_miss_completed (flt : Faults) (db : String → Option Record)
    (parse : String → Option PyVal) (ttl now : Nat) (st : CacheSt) (fid : String)
    (record : Record) (r0 : Resp)
    (hget : flt.cacheGetFault = Option.none)
    (hdbf : flt.dbFault = Option.none)
    (hset : flt.cacheSetFault = Option.none)
    (habs : lookupEntry st (get_cache_key fid) = Option.none)
    (hdb : db fid = some record)
    (hfr : format_response parse ttl record = .ok r0)
    (hstat : respGet r0 "status" = some (PyVal.str "completed")) :
    get_feedback_results flt db parse ttl now st fid true =
      (respSet (respSet r0 "cache_hit" (PyVal.bool false))
         "retrieved_from" (PyVal.str "database"),
       setEntry st (get_cache_key fid)
         (respSet (respSet r0 "cache_hit" (PyVal.bool false))
           "retrieved_from" (PyVal.str "database"))
         (now + ttl)) := by
  have hstat2 : respGet (respSet (respSet r0 "cache_hit" (PyVal.bool false))
      "retrieved_from" (PyVal.str "database")) "status" = some (PyVal.str "completed") := by
    rw [respGet_respSet_ne _ _ _ _ (by decide), respGet_respSet_ne _ _ _ _ (by decide), hstat]
  have hcg : cacheGet flt.cacheGetFault now st fid = (Option.none, st) := by
    rw [hget]; unfold cacheGet; rw [habs]
  simp only [get_feedback_results, hcg, if_true, fetchFromDb, hdbf, hdb, hfr, hstat2,
    pyEqStr, beq_self_eq_true, Bool.true_and, cacheSet, hset, reduceIte]

/-- C1 (amended): for a durable record stored with status `completed` whose
payload is extractable and structurable (so the retrieval itself reports
`completed`), a first `use_cache` fetch populates the cache and a second
`use_cache` call within the TTL window returns `cache_hit = true` with a
`results` field identical to the first response's. -/
theorem C1_completed_cached_roundtrip (db : String → Option Record)
    (parse : String → Option PyVal) (ttl t1 t2 : Nat) (st0 : CacheSt)
    (fid : String) (record : Record)
    (hdb : db fid = some record)
    (habs : lookupEntry st0 (get_cache_key fid) = Option.none)
    (hstatus : record.status = some "completed")
    (hex : (extract_analysis_data parse record).truthy = true)
    (hsOk : exceptOk (structure_analysis_results (extract_analysis_data parse record)) = true)
    (htime : t2 < t1 + ttl) :
    respGet (get_feedback_results noFaults db parse ttl t2
        (get_feedback_results noFaults db parse ttl t1 st0 fid true).snd fid true).fst
      "cache_hit" = some (PyVal.bool true) ∧
    respGet (get_feedback_results noFaults db parse ttl t2
        (get_feedback_results noFaults db parse ttl t1 st0 fid true).snd fid true).fst
      "results" =
      respGet (get_feedback_results noFaults db parse ttl t1 st0 fid true).fst "results" := by
  cases hs : structure_analysis_results (extract_analysis_data parse record) with
  | error e => rw [hs] at hsOk; simp [exceptOk] at hsOk
  | ok structured =>
  have hproc : record.status.getD "completed" ≠ "processing" := by
    rw [hstatus]; decide
  have hfr := format_response_completed_of parse ttl record structured hproc hex hs
  have hstat0 : respGet (respSet (respSet (respSet (baseResponse ttl record)
      "results" structured) "status" (PyVal.str "completed"))
      "message" (PyVal.str "Analysis completed successfully")) "status" =
      some (PyVal.str "completed") := by
    rw [respGet_respSet_ne _ _ _ _ (by decide), respGet_respSet_self]
  have hcall1 := gfr_miss_completed noFaults db parse ttl t1 st0 fid record _
    rfl rfl rfl habs hdb hfr hstat0
  rw [hcall1]
  dsimp only
  have hlook1 := lookupEntry_setEntry_self st0 (get_cache_key fid)
    (respSet (respSet (respSet (respSet (respSet (baseResponse ttl record)
        "results" structured) "status" (PyVal.str "completed"))
        "message" (PyVal.str "Analysis completed successfully"))
        "cache_hit" (PyVal.bool false)) "retrieved_from" (PyVal.str "database"))
    (t1 + ttl)
  have hcall2 := gfr_cache_hit noFaults db parse ttl t2 _ fid _ (t1 + ttl)
    rfl hlook1 htime (respSet_ne_nil _ _ _)
  rw [hcall2]
  dsimp only
  constructor
  · rw [respGet_respSet_ne _ _ _ _ (by decide), respGet_respSet_self]
  · rw [respGet_respSet_ne _ _ _ _ (by decide), respGet_respSet_ne _ _ _ _ (by decide)]

/-- A record stored as `completed` but holding no extractable payload. -/
def badCompletedRecord : Record :=
  ⟨"A2", some "completed", Option.none, Option.none, Option.none, Option.none,
   Option.none, Option.none, Option.none⟩

/-- C1 counterexample: a durable record with stored status `completed` whose
payload is unextractable is downgraded to `failed` and never cached, so the
second `use_cache` call within the TTL window still reports
`cache_hit = false`. -/
theorem C1_counterexample :
    badCompletedRecord.status = some "completed" ∧
    (10 : Nat) < 0 + 300 ∧
    respGet (get_feedback_results noFaults (fun _ => some badCompletedRecord) parseFail 300 10
        (get_feedback_results noFaults (fun _ => some badCompletedRecord) parseFail 300 0
          [] "A2" true).snd "A2" true).fst "cache_hit" = some (PyVal.bool false) ∧
    respGet (get_feedback_results noFaults (fun _ => some badCompletedRecord) parseFail 300 10
        (get_feedback_results noFaults (fun _ => some badCompletedRecord) parseFail 300 0
          [] "A2" true).snd "A2" true).fst "cache_hit" ≠ some (PyVal.bool true) := by
  refine ⟨rfl, by decide, rfl, ?_⟩
  intro hcontra
  rw [show respGet (get_feedback_results noFaults (fun _ => some badCompletedRecord) parseFail
      300 10 (get_feedback_results noFaults (fun _ => some badCompletedRecord) parseFail 300 0
        [] "A2" true).snd "A2" true).fst "cache_hit" = some (PyVal.bool false) from rfl] at hcontra
  simp at hcontra

theorem C1_witness :
    respGet (get_feedback_results noFaults (fun _ => some goodRecord) parseFail 300 10
        (get_feedback_results noFaults (fun _ => some goodRecord) parseFail 300 0
          [] "A1" true).snd "A1" true).fst "cache_hit" = some (PyVal.bool true) ∧
    respGet (get_feedback_results noFaults (fun _ => some goodRecord) parseFail 300 10
        (get_feedback_results noFaults (fun _ => some goodRecord) parseFail 300 0
          [] "A1" true).snd "A1" true).fst "results" =
      respGet (get_feedback_results noFaults (fun _ => some goodRecord) parseFail 300 0
        [] "A1" true).fst "results" :=
  C1_completed_cached_roundtrip (fun _ => some goodRecord) parseFail 300 0 10 [] "A1"
    goodRecord rfl rfl rfl rfl rfl (by decide)

/-- C10 (amended): for every stored record that is not reported as
`processing`, from which a truthy (non-empty) analysis payload is extracted
and whose structuring step succeeds, the response reports status `completed`
with the success message regardless of the stored status value (such a
response is what `get_feedback_results` then deems cacheable). -/
theorem C10_truthy_payload_completed (parse : String → Option PyVal) (ttl : Nat)
    (record : Record)
    (hproc : record.status.getD "completed" ≠ "processing")
    (hex : (extract_analysis_data parse record).truthy = true)
    (hok : exceptOk (format_response parse ttl record) = true) :
    respGet (okResp (format_response parse ttl record)) "status" =
      some (PyVal.str "completed") ∧
    respGet (okResp (format_response parse ttl record)) "message" =
      some (PyVal.str "Analysis completed successfully") := by
  cases hs : structure_analysis_results (extract_analysis_data parse record) with
  | error e =>
      have herr : format_response parse ttl record = .error e := by
        unfold format_response
        rw [if_neg hproc, if_pos hex, hs]
      rw [herr] at hok
      simp [exceptOk] at hok
  | ok structured =>
      rw [format_response_completed_of parse ttl record structured hproc hex hs]
      constructor
      · rw [okResp, respGet_respSet_ne _ _ _ _ (by decide), respGet_respSet_self]
      · rw [okResp, respGet_respSet_self]

/-- A record stored as `failed` whose extracted payload is truthy but not a
mapping, so the structuring step raises. -/
def oddPayloadRecord : Record :=
  ⟨"C1x", some "failed", Option.none, Option.none, Option.none, Option.none,
   Option.none, some (PyVal.dict [("analysis", PyVal.num 5)]), Option.none⟩

/-- C10 counterexample: a non-`processing` record with a non-empty extractable
payload (the number `5`) makes `_structure_analysis_results` raise, so the
retrieval reports status `error`, not the claimed `completed`. -/
theorem C10_counterexample :
    (extract_analysis_data parseFail oddPayloadRecord).truthy = true ∧
    oddPayloadRecord.status.getD "completed" ≠ "processing" ∧
    exceptOk (format_response parseFail 300 oddPayloadRecord) = false ∧
    respGet (get_feedback_results noFaults (fun _ => some oddPayloadRecord) parseFail 300 0
        [] "C1x" true).fst "status" = some (PyVal.str "error") ∧
    respGet (get_feedback_results noFaults (fun _ => some oddPayloadRecord) parseFail 300 0
        [] "C1x" true).fst "status" ≠ some (PyVal.str "completed") := by
  refine ⟨rfl, by decide, rfl, rfl, ?_⟩
  intro hcontra
  rw [show respGet (get_feedback_results noFaults (fun _ => some oddPayloadRecord) parseFail
      300 0 [] "C1x" true).fst "status" = some (PyVal.str "error") from rfl] at hcontra
  simp at hcontra

/-- A record stored as `failed` but with a well-formed nested payload. -/
def goodFailedRecord : Record :=
  ⟨"D1", some "failed", Option.none, Option.none, Option.none, Option.none,
   Option.none,
   some (PyVal.dict [("analysis", PyVal.dict [("executive_summary", PyVal.str "Good")])]),
   Option.none⟩

theorem C10_witness :
    respGet (okResp (format_response parseFail 300 goodFailedRecord)) "status" =
      some (PyVal.str "completed") ∧
    respGet (okResp (format_response parseFail 300 goodFailedRecord)) "message" =
      some (PyVal.str "Analysis completed successfully") :=
  C10_truthy_payload_completed parseFail 300 goodFailedRecord (by decide) rfl rfl
